import Mathlib

/-!
Shallow embedding of the AskMyDocs chat client
(`src/rag_frontend/src/App.jsx`).

The client is a single React component.  Its state hooks become fields of
`AppState`; each async handler becomes a pure transition function that takes
the current state together with the response(s) the network would deliver
(`Except String α`: `.error msg` models a thrown error carrying
`err.message`) and returns the new state, plus the list of API requests the
handler issued.  JavaScript truthiness on optional JSON fields is modelled
explicitly (`jsOr`, the `Option`-valued fields below).
-/

namespace AskMyDocs

/-- `user` object returned by `/auth/login/`, `/auth/register/`, `/auth/user/`. -/
structure UserT where
  id : Nat
  username : String
deriving Repr, DecidableEq

/-- A source snippet attached to a message (`message.sources[i]`). -/
structure SourceT where
  content : String
deriving Repr, DecidableEq

/-- A chat message as delivered by the backend.  `sources` may be absent. -/
structure Message where
  id : Nat
  role : String
  content : String
  sources : Option (List SourceT)
deriving Repr, DecidableEq

/-- A document entry of a thread; only the length of `documents` is ever
consulted (`data.documents.length > 0`), so its shape is opaque. -/
structure DocT where
  id : Nat
deriving Repr, DecidableEq

/-- A thread object as it appears in JSON responses.  The thread-list items
carry `id`, `title`, `message_count`; the detail response
(`GET /threads/{id}/`) additionally carries `messages` and `documents`.
JavaScript objects are untyped, so one record with optional fields models
both shapes (the code reads `data.messages || []` and guards
`data.documents && ...`). -/
structure ThreadObj where
  id : Nat
  title : String
  message_count : Nat
  messages : Option (List Message)
  documents : Option (List DocT)
deriving Repr, DecidableEq

/-- Login/register response body: `{token, user}`. -/
structure AuthResp where
  token : String
  user : UserT
deriving Repr, DecidableEq

/-- `POST /threads/{id}/send_message/` response: `{user_message, assistant_message}`. -/
structure SendResp where
  user_message : Message
  assistant_message : Message
deriving Repr, DecidableEq

/-- `POST /threads/{id}/upload_document/` response:
`{updated_message_id?, thread_title?}`. -/
structure UploadResp where
  updated_message_id : Option Nat
  thread_title : Option String
deriving Repr, DecidableEq

/-- JSON error body of a non-2xx response, as read by `apiCall`:
`error.error || error.detail || 'An error occurred'`.  Either field may be
absent. -/
structure ErrorBody where
  error : Option String
  detail : Option String
deriving Repr, DecidableEq

/-- The network requests a handler can issue (endpoint plus the data that
identifies the call). -/
inductive ApiRequest where
  | login
  | register
  | logoutReq
  | getUser
  | listThreads
  | createThread
  | getThread (id : Nat)
  | deleteThread (id : Nat)
  | sendMessage (threadId : Nat) (text : String)
  | uploadDocument (threadId : Nat)
deriving Repr, DecidableEq

/-- The component's state hooks (App.jsx lines 12-37).  Form-input glue
(`authForm`, `showAuth`, `sidebarOpen`) is omitted; the loading flags are set
on entry and reset in `finally`, so a completed handler leaves them `false`.
`localStorageToken` models `localStorage.getItem('token')` /
`setItem` / `removeItem`. -/
structure AppState where
  user : Option UserT
  token : Option String
  authError : String
  threads : List ThreadObj
  currentThread : Option ThreadObj
  messages : List Message
  messageInput : String
  sendLoading : Bool
  uploadLoading : Bool
  error : String
  success : String
  hasUploadedDoc : Bool
  localStorageToken : Option String
deriving Repr, DecidableEq

/-- State at first render: `useState(null)` everywhere except
`token = localStorage.getItem('token')` (line 13). -/
def initialState (storedToken : Option String) : AppState :=
  { user := none
    token := storedToken
    authError := ""
    threads := []
    currentThread := none
    messages := []
    messageInput := ""
    sendLoading := false
    uploadLoading := false
    error := ""
    success := ""
    hasUploadedDoc := false
    localStorageToken := storedToken }

/-- JavaScript `a || b` on strings: the empty string is falsy. -/
def jsOr (a b : String) : String :=
  if a = "" then b else a

/-- JavaScript truthiness of an optional string (absent or `""` is falsy). -/
def jsTruthyStr : Option String → Bool
  | some s => s != ""
  | none => false

/-- JavaScript truthiness of an optional number (absent or `0` is falsy). -/
def jsTruthyNat : Option Nat → Bool
  | some n => n != 0
  | none => false

/-- JavaScript `String.prototype.trim()`: strips whitespace from both ends.
Defined over the character list so that it computes by kernel reduction. -/
def jsTrim (s : String) : String :=
  String.mk (((s.data.dropWhile Char.isWhitespace).reverse.dropWhile
    Char.isWhitespace).reverse)

/-- The render gate at line 343: `if (!token) return <auth screen>`.  The
main (authenticated) interface is rendered exactly when the token is truthy. -/
def showsAuthenticatedUI (s : AppState) : Bool :=
  jsTruthyStr s.token

/-- Error-message extraction of `apiCall` on a non-2xx response
(lines 68-71): `const error = await response.json().catch(() => ({}));
throw new Error(error.error || error.detail || 'An error occurred')`.
`parsed = none` models a body that failed to parse as JSON (the `.catch`
substitutes `{}`). -/
def apiErrorMessage (parsed : Option ErrorBody) : String :=
  let e := parsed.getD { error := none, detail := none }
  jsOr (e.error.getD "") (jsOr (e.detail.getD "") "An error occurred")

/-- Message selection exactly as the claim words it ("the `error` field if
present, else the `detail` field if present, else a generic fallback"):
field presence, not JavaScript truthiness.  Stated for comparison with
`apiErrorMessage`. -/
def claimedErrorMessage (parsed : Option ErrorBody) : String :=
  match parsed with
  | none => "An error occurred"
  | some e =>
    match e.error with
    | some s => s
    | none =>
      match e.detail with
      | some t => t
      | none => "An error occurred"

/-- Drop an optional string field that is absent or empty. -/
def nonEmptyField : Option String → Option String
  | some s => if s = "" then none else some s
  | none => none

/-- Message selection with presence read as present-and-non-empty, the rule
actually implemented by the `||` chain. -/
def amendedErrorMessage (parsed : Option ErrorBody) : String :=
  let e := parsed.getD { error := none, detail := none }
  match nonEmptyField e.error with
  | some s => s
  | none =>
    match nonEmptyField e.detail with
    | some t => t
    | none => "An error occurred"

/-- `handleLogin` (lines 115-138): `setAuthError('')` before the try; on
success stores token and user, persists the token, resets auth loading; on
failure `setAuthError(err.message)`. -/
def handleLogin (s : AppState) (resp : Except String AuthResp) :
    AppState × List ApiRequest :=
  match resp with
  | .ok data =>
    ({ s with token := some data.token
              user := some data.user
              localStorageToken := some data.token
              authError := "" },
     [ApiRequest.login])
  | .error msg => ({ s with authError := msg }, [ApiRequest.login])

/-- `handleRegister` (lines 140-160): identical to `handleLogin` against the
registration endpoint. -/
def handleRegister (s : AppState) (resp : Except String AuthResp) :
    AppState × List ApiRequest :=
  match resp with
  | .ok data =>
    ({ s with token := some data.token
              user := some data.user
              localStorageToken := some data.token
              authError := "" },
     [ApiRequest.register])
  | .error msg => ({ s with authError := msg }, [ApiRequest.register])

/-- The `finally` block of `handleLogout` (lines 167-174): clears token,
user, threads, selection, messages and the persisted token. -/
def clearSessionState (s : AppState) : AppState :=
  { s with token := none
           user := none
           threads := []
           currentThread := none
           messages := []
           localStorageToken := none }

/-- `handleLogout` (lines 162-175): best-effort `POST /auth/logout/`; a
failure is only logged (`console.error`); the `finally` block clears local
state either way. -/
def handleLogout (s : AppState) (resp : Except String Unit) :
    AppState × List ApiRequest :=
  match resp with
  | .ok _ => (clearSessionState s, [ApiRequest.logoutReq])
  | .error _ => (clearSessionState s, [ApiRequest.logoutReq])

/-- `fetchCurrentUser` (lines 88-96): on success `setUser(data)`; on failure
logs and calls `handleLogout()` (whose own server call gets response
`logoutResp`). -/
def fetchCurrentUser (s : AppState) (resp : Except String UserT)
    (logoutResp : Except String Unit) : AppState × List ApiRequest :=
  match resp with
  | .ok data => ({ s with user := some data }, [ApiRequest.getUser])
  | .error _ =>
    let r := handleLogout s logoutResp
    (r.1, ApiRequest.getUser :: r.2)

/-- `fetchThreads` (lines 98-105): on success replaces the thread list; a
failure is only logged, no state changes. -/
def fetchThreads (s : AppState) (resp : Except String (List ThreadObj)) :
    AppState × List ApiRequest :=
  match resp with
  | .ok data => ({ s with threads := data }, [ApiRequest.listThreads])
  | .error _ => (s, [ApiRequest.listThreads])

/-- `createNewThread` (lines 178-191): on success prepends the new thread,
selects it, resets messages (`data.messages || []`) and the document flag;
on failure only a transient error notification. -/
def createNewThread (s : AppState) (resp : Except String ThreadObj) :
    AppState × List ApiRequest :=
  match resp with
  | .ok data =>
    ({ s with threads := data :: s.threads
              currentThread := some data
              messages := data.messages.getD []
              hasUploadedDoc := false
              success := "New chat created!" },
     [ApiRequest.createThread])
  | .error _ =>
    ({ s with error := "Failed to create new thread" }, [ApiRequest.createThread])

/-- `selectThread` (lines 193-206), resolution part: applies the
`GET /threads/{id}/` response when it arrives.  On success replaces
`currentThread`, `messages` (`data.messages || []`) and the document flag
(`data.documents && data.documents.length > 0`); on failure a transient
error.  There is no check that the response still matches the current
selection. -/
def selectThread (s : AppState) (resp : Except String ThreadObj) : AppState :=
  match resp with
  | .ok data =>
    { s with currentThread := some data
             messages := data.messages.getD []
             hasUploadedDoc :=
               match data.documents with
               | some ds => !ds.isEmpty
               | none => false }
  | .error _ => { s with error := "Failed to load thread" }

/-- Applies the resolutions of several in-flight `selectThread` fetches in
the order in which the responses arrive.  Starting a fetch mutates nothing
(the handler's first statement is the `await`), so a run of overlapping
selections is fully described by the arrival order. -/
def applyResolutions (s : AppState) (rs : List (Except String ThreadObj)) :
    AppState :=
  rs.foldl selectThread s

/-- `deleteThread` (lines 209-232): does nothing unless the confirm dialog
was accepted; awaits the DELETE and only on success filters the thread out
of the list (clearing selection, messages and document flag when the deleted
thread was selected); on failure only a transient error notification. -/
def deleteThread (s : AppState) (threadId : Nat) (confirmed : Bool)
    (resp : Except String Unit) : AppState × List ApiRequest :=
  match confirmed with
  | false => (s, [])
  | true =>
    match resp with
    | .ok _ =>
      let s1 := { s with threads := s.threads.filter (fun t => t.id != threadId)
                         success := "Chat deleted!" }
      let selMatches := match s.currentThread with
        | some ct => ct.id == threadId
        | none => false
      (if selMatches then
        { s1 with currentThread := none, messages := [], hasUploadedDoc := false }
       else s1,
       [ApiRequest.deleteThread threadId])
    | .error _ =>
      ({ s with error := "Failed to delete thread" }, [ApiRequest.deleteThread threadId])

/-- `sendMessage` (lines 235-259): guard
`if (!messageInput.trim() || !currentThread) return` issues nothing and
changes nothing; otherwise `setError('')`, POST the message, on success
append the returned pair, clear the input and fire `fetchThreads()` (its
resolution is a separate step); on failure a transient error, input kept. -/
def sendMessage (s : AppState) (resp : Except String SendResp) :
    AppState × List ApiRequest :=
  match s.currentThread with
  | none => (s, [])
  | some ct =>
    if jsTrim s.messageInput = "" then (s, [])
    else
      match resp with
      | .ok data =>
        ({ s with messages := s.messages ++ [data.user_message, data.assistant_message]
                  messageInput := ""
                  error := ""
                  sendLoading := false },
         [ApiRequest.sendMessage ct.id s.messageInput, ApiRequest.listThreads])
      | .error _ =>
        ({ s with error := "Failed to send message", sendLoading := false },
         [ApiRequest.sendMessage ct.id s.messageInput])

/-- Title update step of `handleFileUpload` (lines 290-301): when
`data.thread_title` is truthy, spreads the new title into the selected
thread and into the list entry with the matching id. -/
def applyTitleUpdate (s : AppState) (ct : ThreadObj) (data : UploadResp) :
    AppState :=
  if jsTruthyStr data.thread_title then
    { s with currentThread := some { ct with title := data.thread_title.getD "" }
             threads := s.threads.map (fun t =>
               if t.id == ct.id then { t with title := data.thread_title.getD "" } else t) }
  else s

/-- Marker for the file picked in the hidden file input. -/
structure FileT where
  name : String
deriving Repr, DecidableEq

/-- `handleFileUpload` (lines 262-313): guard `if (!file || !currentThread)
return`; otherwise `setError('')` and POST the file.  On success, when
`data.updated_message_id` is truthy re-fetch the thread (response
`threadResp`) and replace the message list, setting the document flag; when
`data.thread_title` is truthy update titles; then a success notification.
Any thrown error (upload or re-fetch) lands in the catch:
`setError(err.message || 'Failed to upload document')`. -/
def handleFileUpload (s : AppState) (file : Option FileT)
    (uploadResp : Except String UploadResp)
    (threadResp : Except String ThreadObj) : AppState × List ApiRequest :=
  match file, s.currentThread with
  | none, _ => (s, [])
  | some _, none => (s, [])
  | some _, some ct =>
    match uploadResp with
    | .error msg =>
      ({ s with error := jsOr msg "Failed to upload document", uploadLoading := false },
       [ApiRequest.uploadDocument ct.id])
    | .ok data =>
      if jsTruthyNat data.updated_message_id then
        match threadResp with
        | .error msg =>
          ({ s with error := jsOr msg "Failed to upload document", uploadLoading := false },
           [ApiRequest.uploadDocument ct.id, ApiRequest.getThread ct.id])
        | .ok td =>
          let s1 := { s with messages := td.messages.getD [], hasUploadedDoc := true }
          let s2 := applyTitleUpdate s1 ct data
          ({ s2 with success := "Document uploaded!", error := "", uploadLoading := false },
           [ApiRequest.uploadDocument ct.id, ApiRequest.getThread ct.id])
      else
        let s2 := applyTitleUpdate s ct data
        ({ s2 with success := "Document uploaded!", error := "", uploadLoading := false },
         [ApiRequest.uploadDocument ct.id])

/-- `getMessageLabel` (lines 316-327): display label for a message role;
unknown roles are returned unchanged. -/
def getMessageLabel (role : String) : String :=
  match role with
  | "user" => "You"
  | "assistant" => "Chatbot"
  | "system" => "System"
  | _ => role

/-! Concrete sample data used by counterexamples and witnesses. -/

/-- A sample assistant message belonging to thread A. -/
def msgA : Message :=
  { id := 10, role := "assistant", content := "answer from thread A", sources := none }

/-- Detail response for thread A (`GET /threads/1/`). -/
def detailA : ThreadObj :=
  { id := 1, title := "Thread A", message_count := 1
    messages := some [msgA], documents := some [] }

/-- Detail response for thread B (`GET /threads/2/`). -/
def detailB : ThreadObj :=
  { id := 2, title := "Thread B", message_count := 0
    messages := some [], documents := none }

/-- A logged-in state: token present and user fetched. -/
def authedState : AppState :=
  { initialState (some "T1") with user := some { id := 1, username := "alice" } }

/-! Theorems, one per claim of the specification. -/

/-- C1, as stated, is false: after `selectThread(A)` then `selectThread(B)`
where A's fetch resolves after B's (arrival order `[B, A]`), the final state
shows A's thread detail and messages, not B's — the late response for A is
applied, not discarded. -/
theorem selectThread_stale_discard_refuted :
    detailA.id ≠ detailB.id
    ∧ (applyResolutions authedState [Except.ok detailB, Except.ok detailA]).currentThread
        = some detailA
    ∧ (applyResolutions authedState [Except.ok detailB, Except.ok detailA]).messages
        = [msgA]
    ∧ (applyResolutions authedState [Except.ok detailB, Except.ok detailA]).currentThread
        ≠ some detailB :=
  ⟨by decide, rfl, rfl, by decide⟩

/-- C1 amended: for two selections of distinct threads whose fetches both
succeed, the response that resolves last wins — when A's fetch resolves
after B's, the selected-thread state and message pane show A's detail and
messages (no stale-response discard exists). -/
theorem selectThread_last_resolution_wins (s : AppState) (dB dA : ThreadObj)
    (_hne : dA.id ≠ dB.id) :
    (applyResolutions s [Except.ok dB, Except.ok dA]).currentThread = some dA
    ∧ (applyResolutions s [Except.ok dB, Except.ok dA]).messages = dA.messages.getD [] :=
  ⟨rfl, rfl⟩

/-- Witness for `selectThread_last_resolution_wins` at concrete threads. -/
theorem selectThread_last_resolution_wins_witness :
    detailA.id ≠ detailB.id
    ∧ (applyResolutions authedState [Except.ok detailB, Except.ok detailA]).currentThread
        = some detailA :=
  ⟨by decide,
   (selectThread_last_resolution_wins authedState detailB detailA (by decide)).1⟩

/-- C2, as stated, is false: at startup with a persisted token the client
renders the authenticated interface while the user object is still absent
(the gate at line 343 tests the token alone). -/
theorem authenticated_ui_without_user :
    showsAuthenticatedUI (initialState (some "T1")) = true
    ∧ (initialState (some "T1")).user = none :=
  ⟨by decide, rfl⟩

/-- C2 amended: the authenticated UI is gated solely on a truthy token, so
it can be shown while the user object is absent (session restoration in
flight); a successful login or register sets token and user together; a
failed user fetch (token rejected) clears both. -/
theorem auth_token_gate_amended :
    (∀ t : String, showsAuthenticatedUI (initialState (some t)) = (t != "")
        ∧ (initialState (some t)).user = none)
    ∧ (∀ s d, ((handleLogin s (Except.ok d)).1).token = some d.token
        ∧ ((handleLogin s (Except.ok d)).1).user = some d.user)
    ∧ (∀ s d, ((handleRegister s (Except.ok d)).1).token = some d.token
        ∧ ((handleRegister s (Except.ok d)).1).user = some d.user)
    ∧ (∀ s m lr, ((fetchCurrentUser s (Except.error m) lr).1).token = none
        ∧ ((fetchCurrentUser s (Except.error m) lr).1).user = none) :=
  ⟨fun _ => ⟨rfl, rfl⟩,
   fun _ _ => ⟨rfl, rfl⟩,
   fun _ _ => ⟨rfl, rfl⟩,
   fun _ _ lr => by cases lr <;> exact ⟨rfl, rfl⟩⟩

/-- A state in the middle of a chat: thread A selected, one message shown,
input buffer holding "hi". -/
def chattingState : AppState :=
  { authedState with threads := [detailA, detailB]
                     currentThread := some detailA
                     messages := [msgA]
                     messageInput := "hi" }

/-- Sample `send_message` response pair. -/
def sendRespX : SendResp :=
  { user_message := { id := 20, role := "user", content := "hi", sources := none }
    assistant_message := { id := 21, role := "assistant", content := "hello", sources := none } }

/-- C3, as stated, is false: when the send request fails, `fetchThreads()`
is never reached (it sits inside the `try` after the `await`), so no
thread-list refresh is triggered on failure. -/
theorem sendMessage_failure_no_refresh :
    (sendMessage chattingState (Except.error "network down")).2
      = [ApiRequest.sendMessage 1 "hi"]
    ∧ ApiRequest.listThreads ∉ (sendMessage chattingState (Except.error "network down")).2 :=
  ⟨rfl, by decide⟩

/-- C3 amended: with a selected thread and non-blank text, a successful send
appends the returned message pair and triggers the thread-list refresh; a
failed send triggers no refresh; and a failure of the refresh itself changes
nothing, so it does not roll back the appended pair. -/
theorem sendMessage_refresh_on_success_only :
    (∀ s ct data, s.currentThread = some ct → jsTrim s.messageInput ≠ "" →
      (sendMessage s (Except.ok data)).2
        = [ApiRequest.sendMessage ct.id s.messageInput, ApiRequest.listThreads]
      ∧ ((sendMessage s (Except.ok data)).1).messages
        = s.messages ++ [data.user_message, data.assistant_message])
    ∧ (∀ s ct m, s.currentThread = some ct → jsTrim s.messageInput ≠ "" →
      (sendMessage s (Except.error m)).2 = [ApiRequest.sendMessage ct.id s.messageInput])
    ∧ (∀ s m, (fetchThreads s (Except.error m)).1 = s)
    ∧ (∀ s ct data m, s.currentThread = some ct → jsTrim s.messageInput ≠ "" →
      ((fetchThreads ((sendMessage s (Except.ok data)).1) (Except.error m)).1).messages
        = s.messages ++ [data.user_message, data.assistant_message]) := by
  refine ⟨?_, ?_, ?_, ?_⟩
  · intro s ct data h hne
    simp [sendMessage, h, hne]
  · intro s ct m h hne
    simp [sendMessage, h, hne]
  · intro s m
    rfl
  · intro s ct data m h hne
    simp [sendMessage, fetchThreads, h, hne]

/-- Witness for `sendMessage_refresh_on_success_only` at a concrete state. -/
theorem sendMessage_refresh_on_success_only_witness :
    (chattingState.currentThread = some detailA ∧ jsTrim chattingState.messageInput ≠ "")
    ∧ (sendMessage chattingState (Except.ok sendRespX)).2
        = [ApiRequest.sendMessage detailA.id chattingState.messageInput,
           ApiRequest.listThreads] :=
  ⟨⟨rfl, by decide⟩,
   (sendMessage_refresh_on_success_only.1 chattingState detailA sendRespX rfl (by decide)).1⟩

/-- C4 confirmed: a failed DELETE changes nothing but the transient error
notification (thread list, selection, messages and document flag all kept),
and only a successful DELETE filters the id out of the thread list. -/
theorem deleteThread_no_speculative_removal :
    (∀ s id m, deleteThread s id true (Except.error m)
        = ({ s with error := "Failed to delete thread" }, [ApiRequest.deleteThread id]))
    ∧ (∀ s id, ((deleteThread s id true (Except.ok ())).1).threads
        = s.threads.filter (fun t => t.id != id)) := by
  constructor
  · intro s id m; rfl
  · intro s id
    simp only [deleteThread]
    split <;> rfl

/-- C5 confirmed: whatever the server logout call returned, `handleLogout`
clears token, user, thread list, selection, messages and the persisted
token. -/
theorem handleLogout_clears_all (s : AppState) (r : Except String Unit) :
    ((handleLogout s r).1).token = none
    ∧ ((handleLogout s r).1).user = none
    ∧ ((handleLogout s r).1).threads = []
    ∧ ((handleLogout s r).1).currentThread = none
    ∧ ((handleLogout s r).1).messages = []
    ∧ ((handleLogout s r).1).localStorageToken = none := by
  cases r <;> exact ⟨rfl, rfl, rfl, rfl, rfl, rfl⟩

/-- C6 confirmed: with blank (whitespace-only) input or no selected thread,
`sendMessage` issues no request and returns the state unchanged. -/
theorem sendMessage_guard_noop (s : AppState) (resp : Except String SendResp)
    (h : jsTrim s.messageInput = "" ∨ s.currentThread = none) :
    sendMessage s resp = (s, []) := by
  cases hs : s.currentThread with
  | none => simp [sendMessage, hs]
  | some ct =>
    rcases h with h | h
    · simp [sendMessage, hs, h]
    · rw [hs] at h; exact absurd h (by simp)

/-- A state with a selected thread but whitespace-only input. -/
def blankInputState : AppState :=
  { authedState with currentThread := some detailA, messageInput := "   " }

/-- Witness for `sendMessage_guard_noop` at a concrete state. -/
theorem sendMessage_guard_noop_witness :
    (jsTrim blankInputState.messageInput = "" ∨ blankInputState.currentThread = none)
    ∧ sendMessage blankInputState (Except.error "ignored") = (blankInputState, []) :=
  ⟨Or.inl (by decide),
   sendMessage_guard_noop blankInputState (Except.error "ignored") (Or.inl (by decide))⟩

/-- C7, as stated, is false: on an error body whose `error` field is present
but empty, the `||` chain skips it and uses `detail`, while the claim's
presence-based rule would return the empty `error` field. -/
theorem apiError_empty_error_field :
    ({ error := some "", detail := some "boom" } : ErrorBody).error.isSome = true
    ∧ apiErrorMessage (some { error := some "", detail := some "boom" }) = "boom"
    ∧ apiErrorMessage (some { error := some "", detail := some "boom" })
        ≠ claimedErrorMessage (some { error := some "", detail := some "boom" }) :=
  ⟨rfl, rfl, by decide⟩

/-- C7 amended: the failure message is the `error` field when present and
non-empty, else the `detail` field when present and non-empty, else the
generic fallback; a body that fails to parse always yields the fallback. -/
theorem apiErrorMessage_truthy_priority :
    (∀ p, apiErrorMessage p = amendedErrorMessage p)
    ∧ apiErrorMessage none = "An error occurred" := by
  constructor
  · intro p
    rcases p with _ | ⟨eo, ed⟩
    · rfl
    · rcases eo with _ | a <;> rcases ed with _ | b <;>
        simp only [apiErrorMessage, amendedErrorMessage, jsOr, nonEmptyField,
          Option.getD_some, Option.getD_none] <;>
        split <;> simp_all <;> split <;> simp_all
  · rfl

/-- The selected thread during an upload scenario (`GET /threads/` shape). -/
def thread7 : ThreadObj :=
  { id := 7, title := "Old title", message_count := 2
    messages := none, documents := none }

/-- Another thread in the list, untouched by the upload. -/
def thread9 : ThreadObj :=
  { id := 9, title := "Other chat", message_count := 0
    messages := none, documents := none }

/-- State just before a document upload into thread 7. -/
def uploadState : AppState :=
  { authedState with threads := [thread7, thread9]
                     currentThread := some thread7
                     messages := [msgA] }

/-- The file handed to the hidden file input. -/
def fileX : FileT := { name := "Invoice.pdf" }

/-- Thread 7 as re-fetched after the upload. -/
def refetched7 : ThreadObj :=
  { id := 7, title := "Old title", message_count := 4
    messages := some [msgA, { id := 42, role := "system",
                              content := "Document ready", sources := none }]
    documents := some [{ id := 1 }] }

/-- Upload response whose `thread_title` field is present but empty. -/
def uploadRespE : UploadResp :=
  { updated_message_id := some 42, thread_title := some "" }

/-- Upload response with a truthy id and title, as in the spec scenario. -/
def uploadRespFull : UploadResp :=
  { updated_message_id := some 42, thread_title := some "Invoice.pdf Chat" }

/-- C8, as stated, is false: a response containing both fields but with an
empty `thread_title` fails the truthiness check `if (data.thread_title)`, so
no title is written — the selected thread and the list keep their old
titles, against the claim's unconditional "updates the title". -/
theorem upload_empty_title_not_applied :
    uploadRespE.updated_message_id.isSome = true
    ∧ uploadRespE.thread_title = some ""
    ∧ ((handleFileUpload uploadState (some fileX) (Except.ok uploadRespE)
          (Except.ok refetched7)).1).currentThread = some thread7
    ∧ thread7.title = "Old title"
    ∧ ("Old title" : String) ≠ ""
    ∧ ((handleFileUpload uploadState (some fileX) (Except.ok uploadRespE)
          (Except.ok refetched7)).1).threads = uploadState.threads :=
  ⟨rfl, rfl, rfl, rfl, by decide, rfl⟩

/-- C8 amended: for a successful upload whose response carries a truthy
(non-zero) `updated_message_id` and a truthy (non-empty) `thread_title`, the
client re-fetches the thread, replaces the local messages with the fetched
ones, sets the document flag, and writes the new title into the selected
thread and into exactly the list entries whose id matches. -/
theorem upload_success_updates (s : AppState) (ct : ThreadObj) (f : FileT)
    (data : UploadResp) (td : ThreadObj) (n : Nat) (t : String)
    (hct : s.currentThread = some ct)
    (hid : data.updated_message_id = some n) (hn : n ≠ 0)
    (ht : data.thread_title = some t) (hte : t ≠ "") :
    (handleFileUpload s (some f) (Except.ok data) (Except.ok td)).2
      = [ApiRequest.uploadDocument ct.id, ApiRequest.getThread ct.id]
    ∧ ((handleFileUpload s (some f) (Except.ok data) (Except.ok td)).1).messages
      = td.messages.getD []
    ∧ ((handleFileUpload s (some f) (Except.ok data) (Except.ok td)).1).hasUploadedDoc
      = true
    ∧ ((handleFileUpload s (some f) (Except.ok data) (Except.ok td)).1).currentThread
      = some { ct with title := t }
    ∧ ((handleFileUpload s (some f) (Except.ok data) (Except.ok td)).1).threads
      = s.threads.map (fun th => if th.id == ct.id then { th with title := t } else th)
    ∧ ((handleFileUpload s (some f) (Except.ok data) (Except.ok td)).1).success
      = "Document uploaded!" := by
  simp [handleFileUpload, applyTitleUpdate, hct, hid, ht, jsTruthyNat, jsTruthyStr,
    hn, hte]

/-- Witness for `upload_success_updates` at the spec's concrete scenario. -/
theorem upload_success_updates_witness :
    (uploadState.currentThread = some thread7
     ∧ uploadRespFull.updated_message_id = some 42
     ∧ (42 : Nat) ≠ 0
     ∧ uploadRespFull.thread_title = some "Invoice.pdf Chat"
     ∧ ("Invoice.pdf Chat" : String) ≠ "")
    ∧ ((handleFileUpload uploadState (some fileX) (Except.ok uploadRespFull)
          (Except.ok refetched7)).1).hasUploadedDoc = true :=
  ⟨⟨rfl, rfl, by decide, rfl, by decide⟩,
   (upload_success_updates uploadState thread7 fileX uploadRespFull refetched7 42
      "Invoice.pdf Chat" rfl rfl (by decide) rfl (by decide)).2.2.1⟩

/-- C9 confirmed: a failed thread creation leaves the thread list, the
selection, the messages, the document flag and everything else unchanged;
the only state change is the transient error notification. -/
theorem createNewThread_failure_only_error (s : AppState) (m : String) :
    createNewThread s (Except.error m)
      = ({ s with error := "Failed to create new thread" }, [ApiRequest.createThread]) :=
  rfl

/-- C10 confirmed: `getMessageLabel` maps the three known roles to their
display labels and returns every other role string unchanged. -/
theorem getMessageLabel_total :
    getMessageLabel "user" = "You"
    ∧ getMessageLabel "assistant" = "Chatbot"
    ∧ getMessageLabel "system" = "System"
    ∧ ∀ r, r ≠ "user" → r ≠ "assistant" → r ≠ "system" → getMessageLabel r = r := by
  refine ⟨rfl, rfl, rfl, ?_⟩
  intro r h1 h2 h3
  unfold getMessageLabel
  split <;> simp_all

/-- Witness for `getMessageLabel_total` at an unknown role string. -/
theorem getMessageLabel_total_witness :
    (("operator" : String) ≠ "user" ∧ ("operator" : String) ≠ "assistant"
      ∧ ("operator" : String) ≠ "system")
    ∧ getMessageLabel "operator" = "operator" :=
  ⟨⟨by decide, by decide, by decide⟩,
   getMessageLabel_total.2.2.2 "operator" (by decide) (by decide) (by decide)⟩

end AskMyDocs
